import Mathlib

/-!
Shallow embedding of the reference-cell geometry core
(`source/grid/reference_cell.cc`): shape kinds, cross-format index
translation tables, VTK lexicographic-to-node-index algorithms,
stream (de)serialization of the shape tag, the nodal-type quadrature
facade, and the orientation permutation tables, together with proofs
of the specified properties.

Machine integers (`unsigned int`) are embedded as `ℕ`; none of the
embedded arithmetic can overflow 32 bits on the in-range inputs the
theorems quantify over, and the sentinel `numbers::invalid_unsigned_int`
is embedded as its literal value `4294967295`.  Fallible operations
(paths whose source hits `Assert(false, ...)` or an index-range assert)
return `Option`.
-/

namespace DealII

/-- The closed set of shape kinds (`ReferenceCells::Vertex` … `Invalid`)
from `reference_cell.h`, as enumerated by every `switch` in
`reference_cell.cc`. -/
inductive ReferenceCell where
  | Vertex
  | Line
  | Triangle
  | Quadrilateral
  | Tetrahedron
  | Pyramid
  | Wedge
  | Hexahedron
  | Invalid
  deriving DecidableEq, Fintype

/-- Modelled from the spec: `n_vertices` is a statically fixed attribute
per kind (spec §3); the header that defines it is not among these
sources.  The values agree with the sizes of the literal translation
arrays in `reference_cell.cc` (Quadrilateral 4, Pyramid 5, Wedge 6,
Hexahedron 8) and with the canonical simplex/hypercube counts for the
rest; Invalid has no vertices (queries on it fail). -/
def ReferenceCell.n_vertices : ReferenceCell → ℕ
  | .Vertex => 1
  | .Line => 2
  | .Triangle => 3
  | .Quadrilateral => 4
  | .Tetrahedron => 4
  | .Pyramid => 5
  | .Wedge => 6
  | .Hexahedron => 8
  | .Invalid => 0

/-- Modelled from the spec: `n_faces` is a statically fixed positive
integer per kind (spec §3); the header defining it is not among these
sources.  The values for Quadrilateral, Tetrahedron, Hexahedron, Wedge
and Pyramid are the sizes of the Exodus face tables of spec §4.4 and of
`exodusii_face_to_deal_face`; Line and Triangle get their geometric
face counts 2 and 3; for Vertex we take 1, the least value compatible
with the spec's positivity requirement, so that the source's
unconditional `return 0` branch for Vertex is exercised at face 0. -/
def ReferenceCell.n_faces : ReferenceCell → ℕ
  | .Vertex => 1
  | .Line => 2
  | .Triangle => 3
  | .Quadrilateral => 4
  | .Tetrahedron => 4
  | .Pyramid => 5
  | .Wedge => 5
  | .Hexahedron => 6
  | .Invalid => 0

/-- Modelled from the spec: the per-kind `dimension` attribute, 0–3
(spec §3); the header defining it is not among these sources. -/
def ReferenceCell.get_dimension : ReferenceCell → ℕ
  | .Vertex => 0
  | .Line => 1
  | .Triangle => 2
  | .Quadrilateral => 2
  | .Tetrahedron => 3
  | .Pyramid => 3
  | .Wedge => 3
  | .Hexahedron => 3
  | .Invalid => 0

/-- Modelled from the spec: `is_hyper_cube()` holds exactly for
Vertex, Line, Quadrilateral and Hexahedron (spec §4.1). -/
def ReferenceCell.is_hyper_cube : ReferenceCell → Bool
  | .Vertex | .Line | .Quadrilateral | .Hexahedron => true
  | _ => false

/-- Modelled from the spec: `is_simplex()` holds exactly for
Vertex, Line, Triangle and Tetrahedron (spec §4.1). -/
def ReferenceCell.is_simplex : ReferenceCell → Bool
  | .Vertex | .Line | .Triangle | .Tetrahedron => true
  | _ => false

/-- Embedding of `ReferenceCell::to_string` (reference_cell.cc:87-115):
a total switch over the nine kinds; note that the `Invalid` case
returns the string "Invalid" rather than failing. -/
def ReferenceCell.to_string : ReferenceCell → String
  | .Vertex => "Vertex"
  | .Line => "Line"
  | .Triangle => "Tri"
  | .Quadrilateral => "Quad"
  | .Tetrahedron => "Tet"
  | .Pyramid => "Pyramid"
  | .Wedge => "Wedge"
  | .Hexahedron => "Hex"
  | .Invalid => "Invalid"

/-- Embedding of `ReferenceCell::exodusii_vertex_to_deal_vertex`
(reference_cell.cc:252-291).  The leading index-range assert is the
guard `vertex_n < n_vertices`; the `default` branch of the switch
(`Assert(false, ExcNotImplemented())`) is `none`. -/
def ReferenceCell.exodusii_vertex_to_deal_vertex
    (rc : ReferenceCell) (vertex_n : ℕ) : Option ℕ :=
  if vertex_n < rc.n_vertices then
    match rc with
    | .Line | .Triangle => some vertex_n
    | .Quadrilateral => [0, 1, 3, 2][vertex_n]?
    | .Tetrahedron => some vertex_n
    | .Hexahedron => [0, 1, 3, 2, 4, 5, 7, 6][vertex_n]?
    | .Wedge => [2, 1, 0, 5, 4, 3][vertex_n]?
    | .Pyramid => [0, 1, 3, 2, 4][vertex_n]?
    | _ => none
  else none

/-- Embedding of `ReferenceCell::exodusii_face_to_deal_face`
(reference_cell.cc:295-338).  The source's Wedge array is declared with
six slots but only five initializers; only the first five are ever read
because of the `face_n < n_faces()` assert, so the table is embedded
with its five meaningful entries. -/
def ReferenceCell.exodusii_face_to_deal_face
    (rc : ReferenceCell) (face_n : ℕ) : Option ℕ :=
  if face_n < rc.n_faces then
    match rc with
    | .Vertex => some 0
    | .Line | .Triangle => some face_n
    | .Quadrilateral => [2, 1, 3, 0][face_n]?
    | .Tetrahedron => [1, 3, 2, 0][face_n]?
    | .Hexahedron => [2, 1, 3, 0, 4, 5][face_n]?
    | .Wedge => [3, 4, 2, 0, 1][face_n]?
    | .Pyramid => [3, 2, 4, 1, 0][face_n]?
    | _ => none
  else none

/-- Embedding of `ReferenceCell::unv_vertex_to_deal_vertex`
(reference_cell.cc:342-374): only Line, Quadrilateral and Hexahedron
are handled; every other kind falls through to `Assert(false, ...)`. -/
def ReferenceCell.unv_vertex_to_deal_vertex
    (rc : ReferenceCell) (vertex_n : ℕ) : Option ℕ :=
  if vertex_n < rc.n_vertices then
    match rc with
    | .Line => some vertex_n
    | .Quadrilateral => [1, 0, 2, 3][vertex_n]?
    | .Hexahedron => [6, 7, 5, 4, 2, 3, 1, 0][vertex_n]?
    | _ => none
  else none

/-- Embedding of `ReferenceCell::vtk_vertex_to_deal_vertex`
(reference_cell.cc:671-722): identity for Vertex, Line, Triangle,
Tetrahedron and Wedge; translation tables for Quadrilateral, Pyramid
and Hexahedron; `Assert(false, ...)` for Invalid. -/
def ReferenceCell.vtk_vertex_to_deal_vertex
    (rc : ReferenceCell) (vertex_index : ℕ) : Option ℕ :=
  if vertex_index < rc.n_vertices then
    match rc with
    | .Vertex | .Line | .Triangle => some vertex_index
    | .Quadrilateral => [0, 1, 3, 2][vertex_index]?
    | .Tetrahedron => some vertex_index
    | .Pyramid => [0, 1, 3, 2, 4][vertex_index]?
    | .Wedge => some vertex_index
    | .Hexahedron => [0, 1, 3, 2, 4, 5, 7, 6][vertex_index]?
    | .Invalid => none
  else none

/-- The sentinel `numbers::invalid_unsigned_int`,
i.e. `static_cast<unsigned int>(-1)`. -/
def invalid_unsigned_int : ℕ := 4294967295

/-- Embedding of `ReferenceCell::vtk_linear_type`
(reference_cell.cc:378-406): a total switch; the `Invalid` case
returns the sentinel `VTK_INVALID` value rather than failing. -/
def ReferenceCell.vtk_linear_type : ReferenceCell → ℕ
  | .Vertex => 1
  | .Line => 3
  | .Triangle => 5
  | .Quadrilateral => 9
  | .Tetrahedron => 10
  | .Pyramid => 14
  | .Wedge => 13
  | .Hexahedron => 12
  | .Invalid => invalid_unsigned_int

/-- Embedding of `ReferenceCell::vtk_quadratic_type`
(reference_cell.cc:410-438); `Invalid` returns the sentinel. -/
def ReferenceCell.vtk_quadratic_type : ReferenceCell → ℕ
  | .Vertex => 1
  | .Line => 21
  | .Triangle => 22
  | .Quadrilateral => 23
  | .Tetrahedron => 24
  | .Pyramid => 27
  | .Wedge => 26
  | .Hexahedron => 25
  | .Invalid => invalid_unsigned_int

/-- Embedding of `ReferenceCell::vtk_lagrange_type`
(reference_cell.cc:442-470); `Invalid` returns the sentinel. -/
def ReferenceCell.vtk_lagrange_type : ReferenceCell → ℕ
  | .Vertex => 1
  | .Line => 68
  | .Triangle => 69
  | .Quadrilateral => 70
  | .Tetrahedron => 71
  | .Pyramid => 74
  | .Wedge => 73
  | .Hexahedron => 72
  | .Invalid => invalid_unsigned_int

/-- Embedding of `ReferenceCell::gmsh_element_type`
(reference_cell.cc:726-806): here the `Invalid` case falls into
`Assert(false, ExcNotImplemented())`, so the function is fallible. -/
def ReferenceCell.gmsh_element_type : ReferenceCell → Option ℕ
  | .Vertex => some 15
  | .Line => some 1
  | .Triangle => some 2
  | .Quadrilateral => some 3
  | .Tetrahedron => some 4
  | .Pyramid => some 7
  | .Wedge => some 6
  | .Hexahedron => some 5
  | .Invalid => none

/-- Modelled from the spec: the numeric tag stored in
`ReferenceCell::kind` (a `std::uint8_t`) for each of the nine kinds;
the header assigning the values is not among these sources.  The spec
(§6) only requires a plain-integer encoding with nine distinct valid
values; we use 0–7 for the concrete kinds in declaration order and the
all-ones byte for Invalid. -/
def ReferenceCell.kindTag : ReferenceCell → ℕ
  | .Vertex => 0
  | .Line => 1
  | .Triangle => 2
  | .Quadrilateral => 3
  | .Tetrahedron => 4
  | .Pyramid => 5
  | .Wedge => 6
  | .Hexahedron => 7
  | .Invalid => 255

/-- Embedding of `operator<<(std::ostream &, const ReferenceCell &)`
(reference_cell.cc:810-819): the tag is written to the stream as a
plain integer. -/
def ReferenceCell.writeTag (rc : ReferenceCell) : ℕ := rc.kindTag

/-- Embedding of `operator>>(std::istream &, ReferenceCell &)`
(reference_cell.cc:823-849): an integer is read and validated to be
one of the nine valid tags; any other integer fails the validation
assert, embedded as `none`. -/
def ReferenceCell.readTag (value : ℕ) : Option ReferenceCell :=
  if value = ReferenceCell.Vertex.kindTag then some .Vertex
  else if value = ReferenceCell.Line.kindTag then some .Line
  else if value = ReferenceCell.Triangle.kindTag then some .Triangle
  else if value = ReferenceCell.Quadrilateral.kindTag then some .Quadrilateral
  else if value = ReferenceCell.Tetrahedron.kindTag then some .Tetrahedron
  else if value = ReferenceCell.Hexahedron.kindTag then some .Hexahedron
  else if value = ReferenceCell.Wedge.kindTag then some .Wedge
  else if value = ReferenceCell.Pyramid.kindTag then some .Pyramid
  else if value = ReferenceCell.Invalid.kindTag then some .Invalid
  else none

/-- The `nbdy` local of the 2-D algorithm (reference_cell.cc:516-519):
how many of the two coordinates lie on a boundary of the grid, a
coordinate being on the boundary when it is 0 or equal to its
resolution. -/
def boundaryCount2 (n1 n2 i j : ℕ) : ℕ :=
  (if i = 0 ∨ i = n1 then 1 else 0) + (if j = 0 ∨ j = n2 then 1 else 0)

/-- The `nbdy` local of the 3-D algorithm (reference_cell.cc:578-582). -/
def boundaryCount3 (n1 n2 n3 i j k : ℕ) : ℕ :=
  (if i = 0 ∨ i = n1 then 1 else 0) + (if j = 0 ∨ j = n2 then 1 else 0) +
    (if k = 0 ∨ k = n3 then 1 else 0)

/-- Wrapping 32-bit unsigned subtraction: the value of the C++
expression `a - b` on `unsigned int` operands (represented as their
values below `2^32`). -/
def u32_sub (a b : ℕ) : ℕ :=
  (a % 4294967296 + 4294967296 - b % 4294967296) % 4294967296

/-- Wrapping 32-bit unsigned addition. -/
def u32_add (a b : ℕ) : ℕ := (a + b) % 4294967296

/-- Wrapping 32-bit unsigned multiplication. -/
def u32_mul (a b : ℕ) : ℕ := (a * b) % 4294967296

/-- Embedding of `ReferenceCell::vtk_lexicographic_to_node_index<2>`
(reference_cell.cc:504-551), the Quadrilateral case (the source asserts
the kind is Quadrilateral and otherwise only reads the integer data, so
we embed it as a pure function of the grid data).  `n1, n2` are
`nodes_per_direction`, `i, j` are `node_indices`, all `unsigned int`
values (naturals below `2^32`).  Every arithmetic operation wraps
modulo `2^32` exactly as the source's `unsigned int` arithmetic does,
in the source's association order (so `a - 1 + b - 1` is
`((a - 1) + b) - 1`); the comparisons against 0 and against the
resolutions are value comparisons, as in the source. -/
def vtk_lexicographic_to_node_index_2d (n1 n2 i j : ℕ) : ℕ :=
  if boundaryCount2 n1 n2 i j = 2 then
    if i ≠ 0 then (if j ≠ 0 then 2 else 1) else if j ≠ 0 then 3 else 0
  else if boundaryCount2 n1 n2 i j = 1 ∧ ¬(i = 0 ∨ i = n1) then
    u32_add (u32_add (u32_sub i 1)
      (if j ≠ 0 then u32_sub (u32_add (u32_sub n1 1) n2) 1 else 0)) 4
  else if boundaryCount2 n1 n2 i j = 1 ∧ ¬(j = 0 ∨ j = n2) then
    u32_add (u32_add (u32_sub j 1)
      (if i ≠ 0 then u32_sub n1 1
       else u32_sub (u32_add (u32_mul 2 (u32_sub n1 1)) n2) 1)) 4
  else
    u32_add (u32_add
      (u32_add 4 (u32_mul 2 (u32_sub (u32_add (u32_sub n1 1) n2) 1)))
      (u32_sub i 1)) (u32_mul (u32_sub n1 1) (u32_sub j 1))

/-- The no-overflow idealization of the 2-D algorithm over unbounded
naturals: the same branch structure and formulas as
`vtk_lexicographic_to_node_index_2d` but with ordinary natural
arithmetic.  It serves as proof scaffolding for the bijection
argument; whenever the total node count `(n1+1)*(n2+1)` fits in 32
bits and the inputs lie on the grid, it coincides with the faithful
wrapping embedding (theorem `vtkLex2_u32_eq_ideal`). -/
def vtk_lexicographic_to_node_index_2d_ideal (n1 n2 i j : ℕ) : ℕ :=
  if boundaryCount2 n1 n2 i j = 2 then
    if i ≠ 0 then (if j ≠ 0 then 2 else 1) else if j ≠ 0 then 3 else 0
  else if boundaryCount2 n1 n2 i j = 1 ∧ ¬(i = 0 ∨ i = n1) then
    (i - 1) + (if j ≠ 0 then n1 - 1 + (n2 - 1) else 0) + 4
  else if boundaryCount2 n1 n2 i j = 1 ∧ ¬(j = 0 ∨ j = n2) then
    (j - 1) + (if i ≠ 0 then n1 - 1 else 2 * (n1 - 1) + (n2 - 1)) + 4
  else
    4 + 2 * (n1 - 1 + (n2 - 1)) + (i - 1) + (n1 - 1) * (j - 1)

/-- Explicit inverse of the 2-D node numbering, used to establish that
`vtk_lexicographic_to_node_index_2d_ideal` is a bijection: given a node
index, recover the lexicographic coordinate pair by locating the index
in the vertex stratum `[0, 4)`, then in each of the four edge-interior
blocks, and finally in the row-major face-interior block. -/
def vtk_node_index_to_lexicographic_2d (n1 n2 m : ℕ) : ℕ × ℕ :=
  if m = 0 then (0, 0)
  else if m = 1 then (n1, 0)
  else if m = 2 then (n1, n2)
  else if m = 3 then (0, n2)
  else if m < 4 + (n1 - 1) then (m - 4 + 1, 0)
  else if m < 4 + (n1 - 1) + (n2 - 1) then (n1, m - (4 + (n1 - 1)) + 1)
  else if m < 4 + 2 * (n1 - 1) + (n2 - 1) then
    (m - (4 + (n1 - 1) + (n2 - 1)) + 1, n2)
  else if m < 4 + 2 * (n1 - 1) + 2 * (n2 - 1) then
    (0, m - (4 + 2 * (n1 - 1) + (n2 - 1)) + 1)
  else
    ((m - (4 + 2 * (n1 - 1 + (n2 - 1)))) % (n1 - 1) + 1,
     (m - (4 + 2 * (n1 - 1 + (n2 - 1)))) / (n1 - 1) + 1)

/-- Embedding of `ReferenceCell::vtk_lexicographic_to_node_index<3>`
(reference_cell.cc:565-667), the Hexahedron case.  `n1, n2, n3` are
`nodes_per_direction`, `i, j, k` are `node_indices`; the branch
structure and all offsets mirror the source line by line. -/
def vtk_lexicographic_to_node_index_3d
    (n1 n2 n3 i j k : ℕ) (legacy_format : Bool) : ℕ :=
  if boundaryCount3 n1 n2 n3 i j k = 3 then
    (if i ≠ 0 then (if j ≠ 0 then 2 else 1) else if j ≠ 0 then 3 else 0) +
      (if k ≠ 0 then 4 else 0)
  else if boundaryCount3 n1 n2 n3 i j k = 2 ∧ ¬(i = 0 ∨ i = n1) then
    (i - 1) + (if j ≠ 0 then n1 - 1 + (n2 - 1) else 0) +
      (if k ≠ 0 then 2 * (n1 - 1 + (n2 - 1)) else 0) + 8
  else if boundaryCount3 n1 n2 n3 i j k = 2 ∧ ¬(j = 0 ∨ j = n2) then
    (j - 1) + (if i ≠ 0 then n1 - 1 else 2 * (n1 - 1) + (n2 - 1)) +
      (if k ≠ 0 then 2 * (n1 - 1 + (n2 - 1)) else 0) + 8
  else if boundaryCount3 n1 n2 n3 i j k = 2 then
    if legacy_format then
      (k - 1) +
        (n3 - 1) *
          (if i ≠ 0 then (if j ≠ 0 then 3 else 1) else if j ≠ 0 then 2 else 0) +
        (8 + (4 * (n1 - 1) + 4 * (n2 - 1)))
    else
      (k - 1) +
        (n3 - 1) *
          (if i ≠ 0 then (if j ≠ 0 then 2 else 1) else if j ≠ 0 then 3 else 0) +
        (8 + (4 * (n1 - 1) + 4 * (n2 - 1)))
  else if boundaryCount3 n1 n2 n3 i j k = 1 ∧ (i = 0 ∨ i = n1) then
    (j - 1) + (n2 - 1) * (k - 1) +
      (if i ≠ 0 then (n2 - 1) * (n3 - 1) else 0) +
      (8 + 4 * (n1 - 1 + (n2 - 1) + (n3 - 1)))
  else if boundaryCount3 n1 n2 n3 i j k = 1 ∧ (j = 0 ∨ j = n2) then
    (i - 1) + (n1 - 1) * (k - 1) +
      (if j ≠ 0 then (n3 - 1) * (n1 - 1) else 0) +
      (8 + 4 * (n1 - 1 + (n2 - 1) + (n3 - 1)) + 2 * ((n2 - 1) * (n3 - 1)))
  else if boundaryCount3 n1 n2 n3 i j k = 1 then
    (i - 1) + (n1 - 1) * (j - 1) +
      (if k ≠ 0 then (n1 - 1) * (n2 - 1) else 0) +
      (8 + 4 * (n1 - 1 + (n2 - 1) + (n3 - 1)) + 2 * ((n2 - 1) * (n3 - 1)) +
        2 * ((n3 - 1) * (n1 - 1)))
  else
    (i - 1) + (n1 - 1) * ((j - 1) + (n2 - 1) * (k - 1)) +
      (8 + 4 * (n1 - 1 + (n2 - 1) + (n3 - 1)) +
        2 * ((n2 - 1) * (n3 - 1) + (n3 - 1) * (n1 - 1) + (n1 - 1) * (n2 - 1)))

/-- The order in which the legacy VTK convention lists the four
vertical (third-axis-aligned) edges of a hexahedron: the position code
assigned to the vertical edge whose first two coordinates sit at the
far boundary iff `iFar` resp. `jFar` holds.  Extracted from the
`legacy_format = true` branch of reference_cell.cc:618-622. -/
def legacyVerticalEdgeOrder (iFar jFar : Prop) [Decidable iFar] [Decidable jFar] : ℕ :=
  if iFar then (if jFar then 3 else 1) else if jFar then 2 else 0

/-- The order in which the current VTK convention lists the four
vertical edges of a hexahedron; extracted from the
`legacy_format = false` branch of reference_cell.cc:623-627.  It
differs from `legacyVerticalEdgeOrder` exactly by swapping the codes 2
and 3, i.e. by traversing the four edges around the top face in the
opposite rotational sense. -/
def modernVerticalEdgeOrder (iFar jFar : Prop) [Decidable iFar] [Decidable jFar] : ℕ :=
  if iFar then (if jFar then 2 else 1) else if jFar then 3 else 0

/-- Modelled from the spec: the canonical vertex coordinates of each
kind (spec §3, `vertex_coordinates[0..n_vertices)`); the header that
defines `ReferenceCell::vertex` is not among these sources.  The
concrete coordinates are deal.II's canonical reference cells (unit
interval/square/cube, unit simplices, the standard wedge and the
`[-1,1]^2`-based pyramid); the theorems below depend only on the list
having one entry per vertex. -/
def ReferenceCell.vertexTable : ReferenceCell → List (List ℚ)
  | .Vertex => [[]]
  | .Line => [[0], [1]]
  | .Triangle => [[0, 0], [1, 0], [0, 1]]
  | .Quadrilateral => [[0, 0], [1, 0], [0, 1], [1, 1]]
  | .Tetrahedron => [[0, 0, 0], [1, 0, 0], [0, 1, 0], [0, 0, 1]]
  | .Pyramid => [[-1, -1, 0], [1, -1, 0], [-1, 1, 0], [1, 1, 0], [0, 0, 1]]
  | .Wedge => [[0, 0, 0], [1, 0, 0], [0, 1, 0], [0, 0, 1], [1, 0, 1], [0, 1, 1]]
  | .Hexahedron =>
      [[0, 0, 0], [1, 0, 0], [0, 1, 0], [1, 1, 0],
       [0, 0, 1], [1, 0, 1], [0, 1, 1], [1, 1, 1]]
  | .Invalid => []

/-- The canonical coordinates of vertex `v` of a kind
(`ReferenceCell::vertex<dim>(v)`), built on `vertexTable`. -/
def ReferenceCell.vertex (rc : ReferenceCell) (v : ℕ) : List ℚ :=
  (rc.vertexTable)[v]?.getD []

/-- The per-template-instantiation store of `static const Quadrature`
locals in `get_nodal_type_quadrature` (reference_cell.cc:206-248):
one slot per spatial dimension and per branch (0 = hyper-cube,
1 = simplex, 2 = Pyramid, 3 = Wedge), holding the memoized point list
once initialized. -/
def NodalCache : Type := ℕ → ℕ → Option (List (List ℚ))

/-- The process state before any call: no static local initialized. -/
def emptyNodalCache : NodalCache := fun _ _ => none

/-- Which of the four `if`/`else if` branches of
`get_nodal_type_quadrature` a kind selects, in source order
(reference_cell.cc:223-244); `none` is the final `Assert(false, ...)`
branch. -/
def ReferenceCell.branchIndex (rc : ReferenceCell) : Option ℕ :=
  if rc.is_hyper_cube then some 0
  else if rc.is_simplex then some 1
  else if rc = .Pyramid then some 2
  else if rc = .Wedge then some 3
  else none

/-- The `create_quadrature` lambda of reference_cell.cc:215-221: the
quadrature points are the cell's vertices, in vertex order (weights
are not meaningful and are not modelled). -/
def create_quadrature (rc : ReferenceCell) : List (List ℚ) :=
  (List.range rc.n_vertices).map rc.vertex

/-- Embedding of `ReferenceCell::get_nodal_type_quadrature<dim>`
(reference_cell.cc:206-248) with the function-local `static` state
passed explicitly: the leading `AssertDimension(dim, get_dimension())`
is the outer guard, the branch dispatch follows `branchIndex`, and a
branch whose static slot is uninitialized computes the quadrature,
stores it, and returns it, while an initialized slot is returned
untouched. -/
def get_nodal_type_quadrature (dim : ℕ) (rc : ReferenceCell)
    (cache : NodalCache) : Option (List (List ℚ)) × NodalCache :=
  if dim = rc.get_dimension then
    match rc.branchIndex with
    | some b =>
      match cache dim b with
      | some q => (some q, cache)
      | none =>
        let q := create_quadrature rc
        (some q, fun d bb => if d = dim ∧ bb = b then some q else cache d bb)
    | none => (none, cache)
  else (none, cache)

/-- Modelled from the spec: `line_vertex_permutations`, declared at
reference_cell.cc:79 but with its initializer in the header, which is
not among these sources.  Per spec §3/§8: the 2 permutations of 2
elements, entry 0 the identity. -/
def line_vertex_permutations : Fin 2 → Fin 2 → Fin 2 :=
  ![![0, 1], ![1, 0]]

/-- Modelled from the spec: `triangle_vertex_permutations`, declared at
reference_cell.cc:81-82 with its initializer in the absent header.
Per spec §3/§8: 6 distinct permutations of 3 elements (the full
symmetric group), entry 0 the identity. -/
def triangle_vertex_permutations : Fin 6 → Fin 3 → Fin 3 :=
  ![![0, 1, 2], ![0, 2, 1], ![1, 0, 2], ![1, 2, 0], ![2, 0, 1], ![2, 1, 0]]

/-- Adjacency of the quadrilateral's vertices under the internal
numbering (vertices 0 = (0,0), 1 = (1,0), 2 = (0,1), 3 = (1,1)):
the four edges are 0-1, 2-3, 0-2 and 1-3. -/
def squareAdjacent (x y : Fin 4) : Prop :=
  (x.val, y.val) ∈ [(0, 1), (1, 0), (2, 3), (3, 2), (0, 2), (2, 0), (1, 3), (3, 1)]

instance (x y : Fin 4) : Decidable (squareAdjacent x y) := by
  unfold squareAdjacent; infer_instance

/-- Modelled from the spec: `quadrilateral_vertex_permutations`,
declared at reference_cell.cc:84-85 with its initializer in the absent
header.  Per spec §3/§8: 8 distinct permutations of 4 elements forming
the dihedral group of the square (the symmetries of `squareAdjacent`),
entry 0 the identity. -/
def quadrilateral_vertex_permutations : Fin 8 → Fin 4 → Fin 4 :=
  ![![0, 1, 2, 3], ![1, 3, 0, 2], ![3, 2, 1, 0], ![2, 0, 3, 1],
    ![1, 0, 3, 2], ![2, 3, 0, 1], ![0, 2, 1, 3], ![3, 1, 2, 0]]

/-! ## Theorems -/

/-- C1: for every (format, kind) row of the spec's vertex-map table and
every external vertex index below the kind's vertex count, the
translation functions return exactly the listed values (Exodus
Quadrilateral [0,1,3,2], Hexahedron [0,1,3,2,4,5,7,6], Wedge
[2,1,0,5,4,3], Pyramid [0,1,3,2,4]; UNV Quadrilateral [1,0,2,3],
Hexahedron [6,7,5,4,2,3,1,0]; VTK Quadrilateral [0,1,3,2], Pyramid
[0,1,3,2,4], Hexahedron [0,1,3,2,4,5,7,6]), and the kinds each format
handles without a table (Exodus: Line, Triangle, Tetrahedron; UNV:
Line; VTK: Vertex, Line, Triangle, Tetrahedron, Wedge) are translated
by the identity. -/
theorem claim_C1_vertex_translation_tables :
    ((List.range ReferenceCell.Quadrilateral.n_vertices).map
        ReferenceCell.Quadrilateral.exodusii_vertex_to_deal_vertex =
      [some 0, some 1, some 3, some 2]) ∧
    ((List.range ReferenceCell.Hexahedron.n_vertices).map
        ReferenceCell.Hexahedron.exodusii_vertex_to_deal_vertex =
      [some 0, some 1, some 3, some 2, some 4, some 5, some 7, some 6]) ∧
    ((List.range ReferenceCell.Wedge.n_vertices).map
        ReferenceCell.Wedge.exodusii_vertex_to_deal_vertex =
      [some 2, some 1, some 0, some 5, some 4, some 3]) ∧
    ((List.range ReferenceCell.Pyramid.n_vertices).map
        ReferenceCell.Pyramid.exodusii_vertex_to_deal_vertex =
      [some 0, some 1, some 3, some 2, some 4]) ∧
    ((List.range ReferenceCell.Quadrilateral.n_vertices).map
        ReferenceCell.Quadrilateral.unv_vertex_to_deal_vertex =
      [some 1, some 0, some 2, some 3]) ∧
    ((List.range ReferenceCell.Hexahedron.n_vertices).map
        ReferenceCell.Hexahedron.unv_vertex_to_deal_vertex =
      [some 6, some 7, some 5, some 4, some 2, some 3, some 1, some 0]) ∧
    ((List.range ReferenceCell.Quadrilateral.n_vertices).map
        ReferenceCell.Quadrilateral.vtk_vertex_to_deal_vertex =
      [some 0, some 1, some 3, some 2]) ∧
    ((List.range ReferenceCell.Pyramid.n_vertices).map
        ReferenceCell.Pyramid.vtk_vertex_to_deal_vertex =
      [some 0, some 1, some 3, some 2, some 4]) ∧
    ((List.range ReferenceCell.Hexahedron.n_vertices).map
        ReferenceCell.Hexahedron.vtk_vertex_to_deal_vertex =
      [some 0, some 1, some 3, some 2, some 4, some 5, some 7, some 6]) ∧
    ((List.range ReferenceCell.Line.n_vertices).map
        ReferenceCell.Line.exodusii_vertex_to_deal_vertex =
      (List.range ReferenceCell.Line.n_vertices).map some) ∧
    ((List.range ReferenceCell.Triangle.n_vertices).map
        ReferenceCell.Triangle.exodusii_vertex_to_deal_vertex =
      (List.range ReferenceCell.Triangle.n_vertices).map some) ∧
    ((List.range ReferenceCell.Tetrahedron.n_vertices).map
        ReferenceCell.Tetrahedron.exodusii_vertex_to_deal_vertex =
      (List.range ReferenceCell.Tetrahedron.n_vertices).map some) ∧
    ((List.range ReferenceCell.Line.n_vertices).map
        ReferenceCell.Line.unv_vertex_to_deal_vertex =
      (List.range ReferenceCell.Line.n_vertices).map some) ∧
    ((List.range ReferenceCell.Vertex.n_vertices).map
        ReferenceCell.Vertex.vtk_vertex_to_deal_vertex =
      (List.range ReferenceCell.Vertex.n_vertices).map some) ∧
    ((List.range ReferenceCell.Line.n_vertices).map
        ReferenceCell.Line.vtk_vertex_to_deal_vertex =
      (List.range ReferenceCell.Line.n_vertices).map some) ∧
    ((List.range ReferenceCell.Triangle.n_vertices).map
        ReferenceCell.Triangle.vtk_vertex_to_deal_vertex =
      (List.range ReferenceCell.Triangle.n_vertices).map some) ∧
    ((List.range ReferenceCell.Tetrahedron.n_vertices).map
        ReferenceCell.Tetrahedron.vtk_vertex_to_deal_vertex =
      (List.range ReferenceCell.Tetrahedron.n_vertices).map some) ∧
    ((List.range ReferenceCell.Wedge.n_vertices).map
        ReferenceCell.Wedge.vtk_vertex_to_deal_vertex =
      (List.range ReferenceCell.Wedge.n_vertices).map some) := by
  decide

/-- C4: for every kind and every external face index below the kind's
face count, `exodusii_face_to_deal_face` returns exactly the listed
table value (Quadrilateral [2,1,3,0], Tetrahedron [1,3,2,0], Hexahedron
[2,1,3,0,4,5], Wedge [3,4,2,0,1], Pyramid [3,2,4,1,0]); Line and
Triangle are translated by the identity and Vertex returns 0. -/
theorem claim_C4_exodus_face_tables :
    ((List.range ReferenceCell.Quadrilateral.n_faces).map
        ReferenceCell.Quadrilateral.exodusii_face_to_deal_face =
      [some 2, some 1, some 3, some 0]) ∧
    ((List.range ReferenceCell.Tetrahedron.n_faces).map
        ReferenceCell.Tetrahedron.exodusii_face_to_deal_face =
      [some 1, some 3, some 2, some 0]) ∧
    ((List.range ReferenceCell.Hexahedron.n_faces).map
        ReferenceCell.Hexahedron.exodusii_face_to_deal_face =
      [some 2, some 1, some 3, some 0, some 4, some 5]) ∧
    ((List.range ReferenceCell.Wedge.n_faces).map
        ReferenceCell.Wedge.exodusii_face_to_deal_face =
      [some 3, some 4, some 2, some 0, some 1]) ∧
    ((List.range ReferenceCell.Pyramid.n_faces).map
        ReferenceCell.Pyramid.exodusii_face_to_deal_face =
      [some 3, some 2, some 4, some 1, some 0]) ∧
    ((List.range ReferenceCell.Line.n_faces).map
        ReferenceCell.Line.exodusii_face_to_deal_face =
      (List.range ReferenceCell.Line.n_faces).map some) ∧
    ((List.range ReferenceCell.Triangle.n_faces).map
        ReferenceCell.Triangle.exodusii_face_to_deal_face =
      (List.range ReferenceCell.Triangle.n_faces).map some) ∧
    ((List.range ReferenceCell.Vertex.n_faces).map
        ReferenceCell.Vertex.exodusii_face_to_deal_face =
      [some 0]) := by
  decide

/-- C5: the shape-to-type-code functions return exactly the spec's
closed tables: the VTK linear, quadratic and high-order Lagrange codes
and the Gmsh element-type codes, with the sentinel invalid code for
`vtk_linear_type` on Invalid. -/
theorem claim_C5_type_code_tables :
    (ReferenceCell.Vertex.vtk_linear_type = 1 ∧
     ReferenceCell.Line.vtk_linear_type = 3 ∧
     ReferenceCell.Triangle.vtk_linear_type = 5 ∧
     ReferenceCell.Quadrilateral.vtk_linear_type = 9 ∧
     ReferenceCell.Tetrahedron.vtk_linear_type = 10 ∧
     ReferenceCell.Hexahedron.vtk_linear_type = 12 ∧
     ReferenceCell.Wedge.vtk_linear_type = 13 ∧
     ReferenceCell.Pyramid.vtk_linear_type = 14 ∧
     ReferenceCell.Invalid.vtk_linear_type = invalid_unsigned_int) ∧
    (ReferenceCell.Line.vtk_quadratic_type = 21 ∧
     ReferenceCell.Triangle.vtk_quadratic_type = 22 ∧
     ReferenceCell.Quadrilateral.vtk_quadratic_type = 23 ∧
     ReferenceCell.Tetrahedron.vtk_quadratic_type = 24 ∧
     ReferenceCell.Hexahedron.vtk_quadratic_type = 25 ∧
     ReferenceCell.Wedge.vtk_quadratic_type = 26 ∧
     ReferenceCell.Pyramid.vtk_quadratic_type = 27) ∧
    (ReferenceCell.Line.vtk_lagrange_type = 68 ∧
     ReferenceCell.Triangle.vtk_lagrange_type = 69 ∧
     ReferenceCell.Quadrilateral.vtk_lagrange_type = 70 ∧
     ReferenceCell.Tetrahedron.vtk_lagrange_type = 71 ∧
     ReferenceCell.Hexahedron.vtk_lagrange_type = 72 ∧
     ReferenceCell.Wedge.vtk_lagrange_type = 73 ∧
     ReferenceCell.Pyramid.vtk_lagrange_type = 74) ∧
    (ReferenceCell.Line.gmsh_element_type = some 1 ∧
     ReferenceCell.Triangle.gmsh_element_type = some 2 ∧
     ReferenceCell.Quadrilateral.gmsh_element_type = some 3 ∧
     ReferenceCell.Tetrahedron.gmsh_element_type = some 4 ∧
     ReferenceCell.Hexahedron.gmsh_element_type = some 5 ∧
     ReferenceCell.Wedge.gmsh_element_type = some 6 ∧
     ReferenceCell.Pyramid.gmsh_element_type = some 7 ∧
     ReferenceCell.Vertex.gmsh_element_type = some 15) := by
  decide

/-- C6: writing any of the nine valid tags with the stream output
operator and reading the result back yields an equal tag, and reading
an integer that is none of the nine valid tag values fails the
validation. -/
theorem claim_C6_tag_round_trip :
    (∀ rc : ReferenceCell, ReferenceCell.readTag rc.writeTag = some rc) ∧
    (∀ value : ℕ, (∀ rc : ReferenceCell, value ≠ rc.kindTag) →
      ReferenceCell.readTag value = none) := by
  constructor
  · decide
  · intro value h
    simp only [ReferenceCell.readTag]
    split_ifs with h1 h2 h3 h4 h5 h6 h7 h8 h9
    · exact absurd h1 (h .Vertex)
    · exact absurd h2 (h .Line)
    · exact absurd h3 (h .Triangle)
    · exact absurd h4 (h .Quadrilateral)
    · exact absurd h5 (h .Tetrahedron)
    · exact absurd h6 (h .Hexahedron)
    · exact absurd h7 (h .Wedge)
    · exact absurd h8 (h .Pyramid)
    · exact absurd h9 (h .Invalid)
    · rfl

/-- Witness for C6: the out-of-set integer 9 fails the deserialization
validation. -/
theorem claim_C6_tag_round_trip_witness :
    ReferenceCell.readTag 9 = none :=
  claim_C6_tag_round_trip.2 9 (by decide)

/-- Counterexample to C7 as stated: invoked on the Invalid kind,
`to_string` does not fail but returns the string "Invalid", and the
three VTK type-code functions do not fail but return the sentinel
invalid code `4294967295`. -/
theorem claim_C7_counterexample :
    ReferenceCell.Invalid.to_string = "Invalid" ∧
    ReferenceCell.Invalid.vtk_linear_type = invalid_unsigned_int ∧
    ReferenceCell.Invalid.vtk_quadratic_type = invalid_unsigned_int ∧
    ReferenceCell.Invalid.vtk_lagrange_type = invalid_unsigned_int := by
  decide

/-- C7 (amended): among the named operations only `gmsh_element_type`
fails with the unsupported-shape condition on Invalid; `to_string`
returns the string "Invalid" and the VTK type-code functions return
the sentinel invalid code — the index-translation operations, by
contrast, do fail on Invalid. -/
theorem claim_C7_invalid_kind_behavior :
    ReferenceCell.Invalid.gmsh_element_type = none ∧
    ReferenceCell.Invalid.to_string = "Invalid" ∧
    ReferenceCell.Invalid.vtk_linear_type = invalid_unsigned_int ∧
    ReferenceCell.Invalid.vtk_quadratic_type = invalid_unsigned_int ∧
    ReferenceCell.Invalid.vtk_lagrange_type = invalid_unsigned_int ∧
    (∀ v : ℕ, ReferenceCell.Invalid.exodusii_vertex_to_deal_vertex v = none) ∧
    (∀ f : ℕ, ReferenceCell.Invalid.exodusii_face_to_deal_face f = none) ∧
    (∀ v : ℕ, ReferenceCell.Invalid.unv_vertex_to_deal_vertex v = none) ∧
    (∀ v : ℕ, ReferenceCell.Invalid.vtk_vertex_to_deal_vertex v = none) := by
  refine ⟨rfl, rfl, rfl, rfl, rfl, ?_, ?_, ?_, ?_⟩ <;>
    intro v <;>
    simp [ReferenceCell.exodusii_vertex_to_deal_vertex,
      ReferenceCell.exodusii_face_to_deal_face,
      ReferenceCell.unv_vertex_to_deal_vertex,
      ReferenceCell.vtk_vertex_to_deal_vertex,
      ReferenceCell.n_vertices, ReferenceCell.n_faces]

set_option maxRecDepth 4000 in
/-- C9: the orientation permutation tables have exactly 2 entries for
Line, each a bijection on two slots; exactly 6 entries for Triangle,
forming the full symmetric group on three slots; exactly 8 entries for
Quadrilateral, forming the dihedral group of the square (exactly the
bijections preserving the square's vertex adjacency); and entry 0 of
each table is the identity. -/
theorem claim_C9_orientation_permutation_tables :
    (∀ a b : Fin 2, line_vertex_permutations a = line_vertex_permutations b → a = b) ∧
    (∀ a : Fin 2, Function.Bijective (line_vertex_permutations a)) ∧
    (∀ a b : Fin 6,
      triangle_vertex_permutations a = triangle_vertex_permutations b → a = b) ∧
    (∀ p : Fin 3 → Fin 3,
      Function.Bijective p ↔ ∃ a : Fin 6, triangle_vertex_permutations a = p) ∧
    (∀ a b : Fin 8,
      quadrilateral_vertex_permutations a = quadrilateral_vertex_permutations b →
        a = b) ∧
    (∀ p : Fin 4 → Fin 4,
      (Function.Bijective p ∧
          ∀ x y, squareAdjacent x y → squareAdjacent (p x) (p y)) ↔
        ∃ a : Fin 8, quadrilateral_vertex_permutations a = p) ∧
    line_vertex_permutations 0 = id ∧
    triangle_vertex_permutations 0 = id ∧
    quadrilateral_vertex_permutations 0 = id := by
  decide

/-- C3: for a Hexahedron, the legacy and current node numberings agree
on every node that is not an interior node of one of the four edges
aligned with the third coordinate axis (both `i` and `j` on the
boundary, `k` interior), and on those vertical-edge nodes each flag
value reproduces its historical edge order exactly: the edge block
starts right after the eight vertices and the eight horizontal edge
blocks, and the edge's position within it is given by
`legacyVerticalEdgeOrder` resp. `modernVerticalEdgeOrder`. -/
theorem claim_C3_legacy_format_flag (n1 n2 n3 i j k : ℕ) :
    (¬((i = 0 ∨ i = n1) ∧ (j = 0 ∨ j = n2) ∧ ¬(k = 0 ∨ k = n3)) →
      vtk_lexicographic_to_node_index_3d n1 n2 n3 i j k true =
        vtk_lexicographic_to_node_index_3d n1 n2 n3 i j k false) ∧
    ((i = 0 ∨ i = n1) → (j = 0 ∨ j = n2) → ¬(k = 0 ∨ k = n3) →
      vtk_lexicographic_to_node_index_3d n1 n2 n3 i j k true =
        (k - 1) + (n3 - 1) * legacyVerticalEdgeOrder (i ≠ 0) (j ≠ 0) +
          (8 + (4 * (n1 - 1) + 4 * (n2 - 1))) ∧
      vtk_lexicographic_to_node_index_3d n1 n2 n3 i j k false =
        (k - 1) + (n3 - 1) * modernVerticalEdgeOrder (i ≠ 0) (j ≠ 0) +
          (8 + (4 * (n1 - 1) + 4 * (n2 - 1)))) := by
  constructor
  · intro hns
    by_cases hib : i = 0 ∨ i = n1 <;> by_cases hjb : j = 0 ∨ j = n2 <;>
      by_cases hkb : k = 0 ∨ k = n3 <;>
      simp [vtk_lexicographic_to_node_index_3d, boundaryCount3, hib, hjb, hkb] <;>
      exact absurd ⟨hib, hjb, hkb⟩ hns
  · intro hib hjb hkb
    constructor <;>
      simp [vtk_lexicographic_to_node_index_3d, boundaryCount3, hib, hjb, hkb,
        legacyVerticalEdgeOrder, modernVerticalEdgeOrder]

/-- Witness for C3 at resolution (2,2,2): the node (1,1,1) is not on a
vertical edge and gets the same index under both flags, while the
vertical-edge node (0,2,1) is numbered through the legacy order code 2
under the legacy flag and through the current order code 3 otherwise. -/
theorem claim_C3_legacy_format_flag_witness :
    vtk_lexicographic_to_node_index_3d 2 2 2 1 1 1 true =
      vtk_lexicographic_to_node_index_3d 2 2 2 1 1 1 false ∧
    (vtk_lexicographic_to_node_index_3d 2 2 2 0 2 1 true =
        (1 - 1) + (2 - 1) * legacyVerticalEdgeOrder ((0 : ℕ) ≠ 0) ((2 : ℕ) ≠ 0) +
          (8 + (4 * (2 - 1) + 4 * (2 - 1))) ∧
      vtk_lexicographic_to_node_index_3d 2 2 2 0 2 1 false =
        (1 - 1) + (2 - 1) * modernVerticalEdgeOrder ((0 : ℕ) ≠ 0) ((2 : ℕ) ≠ 0) +
          (8 + (4 * (2 - 1) + 4 * (2 - 1)))) :=
  ⟨(claim_C3_legacy_format_flag 2 2 2 1 1 1).1 (by decide),
   (claim_C3_legacy_format_flag 2 2 2 0 2 1).2 (by decide) (by decide) (by decide)⟩

/-- C8: for every kind with a supported branch (hyper-cube, simplex,
Pyramid, Wedge) queried at its own dimension, the first call of
`get_nodal_type_quadrature` produces a quadrature with exactly
`n_vertices` points whose point `v` is the kind's vertex `v`, and a
second call on the resulting state returns the same memoized instance
and leaves the state untouched (no recomputation). -/
theorem claim_C8_nodal_type_quadrature (rc : ReferenceCell)
    (h : rc.branchIndex.isSome = true) :
    ∃ q,
      (get_nodal_type_quadrature rc.get_dimension rc emptyNodalCache).1 = some q ∧
      q.length = rc.n_vertices ∧
      (∀ v, v < rc.n_vertices → q[v]? = some (rc.vertex v)) ∧
      get_nodal_type_quadrature rc.get_dimension rc
          (get_nodal_type_quadrature rc.get_dimension rc emptyNodalCache).2 =
        (some q,
          (get_nodal_type_quadrature rc.get_dimension rc emptyNodalCache).2) := by
  refine ⟨create_quadrature rc, ?_, ?_, ?_, ?_⟩
  · cases rc <;> first | rfl | exact absurd h (by decide)
  · cases rc <;> first | rfl | exact absurd h (by decide)
  · intro v hv
    cases rc <;>
      first
        | exact absurd h (by decide)
        | (simp only [ReferenceCell.n_vertices] at hv; interval_cases v <;> rfl)
  · cases rc <;> first | rfl | exact absurd h (by decide)

/-- Witness for C8 at the Hexahedron: the eight quadrature points of
the first call are the hexahedron's vertices and the second call
returns the memoized instance unchanged. -/
theorem claim_C8_nodal_type_quadrature_witness :
    ∃ q,
      (get_nodal_type_quadrature ReferenceCell.Hexahedron.get_dimension
          ReferenceCell.Hexahedron emptyNodalCache).1 = some q ∧
      q.length = ReferenceCell.Hexahedron.n_vertices ∧
      (∀ v, v < ReferenceCell.Hexahedron.n_vertices →
        q[v]? = some (ReferenceCell.Hexahedron.vertex v)) ∧
      get_nodal_type_quadrature ReferenceCell.Hexahedron.get_dimension
          ReferenceCell.Hexahedron
          (get_nodal_type_quadrature ReferenceCell.Hexahedron.get_dimension
            ReferenceCell.Hexahedron emptyNodalCache).2 =
        (some q,
          (get_nodal_type_quadrature ReferenceCell.Hexahedron.get_dimension
            ReferenceCell.Hexahedron emptyNodalCache).2) :=
  claim_C8_nodal_type_quadrature ReferenceCell.Hexahedron (by decide)

/-! ### Helper lemmas for the 2-D node-numbering algorithm -/

/-- Value of the 2-D node index on the vertex stratum (both
coordinates on the boundary). -/
theorem vtkLex2_vertex_val (n1 n2 i j : ℕ) (hib : i = 0 ∨ i = n1)
    (hjb : j = 0 ∨ j = n2) :
    vtk_lexicographic_to_node_index_2d_ideal n1 n2 i j =
      (if i ≠ 0 then (if j ≠ 0 then 2 else 1) else if j ≠ 0 then 3 else 0) := by
  simp [vtk_lexicographic_to_node_index_2d_ideal, boundaryCount2, hib, hjb]

/-- Value of the 2-D node index on the edge stratum with the first
coordinate interior. -/
theorem vtkLex2_iedge_val (n1 n2 i j : ℕ) (hib : ¬(i = 0 ∨ i = n1))
    (hjb : j = 0 ∨ j = n2) :
    vtk_lexicographic_to_node_index_2d_ideal n1 n2 i j =
      (i - 1) + (if j ≠ 0 then n1 - 1 + (n2 - 1) else 0) + 4 := by
  simp [vtk_lexicographic_to_node_index_2d_ideal, boundaryCount2, hib, hjb]

/-- Value of the 2-D node index on the edge stratum with the second
coordinate interior. -/
theorem vtkLex2_jedge_val (n1 n2 i j : ℕ) (hib : i = 0 ∨ i = n1)
    (hjb : ¬(j = 0 ∨ j = n2)) :
    vtk_lexicographic_to_node_index_2d_ideal n1 n2 i j =
      (j - 1) + (if i ≠ 0 then n1 - 1 else 2 * (n1 - 1) + (n2 - 1)) + 4 := by
  simp [vtk_lexicographic_to_node_index_2d_ideal, boundaryCount2, hib, hjb]

/-- Value of the 2-D node index on the face-interior stratum. -/
theorem vtkLex2_face_val (n1 n2 i j : ℕ) (hib : ¬(i = 0 ∨ i = n1))
    (hjb : ¬(j = 0 ∨ j = n2)) :
    vtk_lexicographic_to_node_index_2d_ideal n1 n2 i j =
      4 + 2 * (n1 - 1 + (n2 - 1)) + (i - 1) + (n1 - 1) * (j - 1) := by
  simp [vtk_lexicographic_to_node_index_2d_ideal, boundaryCount2, hib, hjb]

/-- The inverse at index 0 yields the corner (0,0). -/
theorem gInv_corner0 (n1 n2 : ℕ) :
    vtk_node_index_to_lexicographic_2d n1 n2 0 = (0, 0) := rfl

/-- The inverse at index 1 yields the corner (n1,0). -/
theorem gInv_corner1 (n1 n2 : ℕ) :
    vtk_node_index_to_lexicographic_2d n1 n2 1 = (n1, 0) := rfl

/-- The inverse at index 2 yields the corner (n1,n2). -/
theorem gInv_corner2 (n1 n2 : ℕ) :
    vtk_node_index_to_lexicographic_2d n1 n2 2 = (n1, n2) := rfl

/-- The inverse at index 3 yields the corner (0,n2). -/
theorem gInv_corner3 (n1 n2 : ℕ) :
    vtk_node_index_to_lexicographic_2d n1 n2 3 = (0, n2) := rfl

/-- The inverse on the bottom-edge block. -/
theorem gInv_bottom (n1 n2 m : ℕ) (hl : 4 ≤ m) (hu : m < 4 + (n1 - 1)) :
    vtk_node_index_to_lexicographic_2d n1 n2 m = (m - 4 + 1, 0) := by
  unfold vtk_node_index_to_lexicographic_2d
  split_ifs <;> first | rfl | (exfalso; omega)

/-- The inverse on the right-edge block. -/
theorem gInv_right (n1 n2 m : ℕ) (hl : 4 + (n1 - 1) ≤ m)
    (hu : m < 4 + (n1 - 1) + (n2 - 1)) :
    vtk_node_index_to_lexicographic_2d n1 n2 m =
      (n1, m - (4 + (n1 - 1)) + 1) := by
  unfold vtk_node_index_to_lexicographic_2d
  split_ifs <;> first | rfl | (exfalso; omega)

/-- The inverse on the top-edge block. -/
theorem gInv_top (n1 n2 m : ℕ) (hl : 4 + (n1 - 1) + (n2 - 1) ≤ m)
    (hu : m < 4 + 2 * (n1 - 1) + (n2 - 1)) :
    vtk_node_index_to_lexicographic_2d n1 n2 m =
      (m - (4 + (n1 - 1) + (n2 - 1)) + 1, n2) := by
  unfold vtk_node_index_to_lexicographic_2d
  split_ifs <;> first | rfl | (exfalso; omega)

/-- The inverse on the left-edge block. -/
theorem gInv_left (n1 n2 m : ℕ) (hl : 4 + 2 * (n1 - 1) + (n2 - 1) ≤ m)
    (hu : m < 4 + 2 * (n1 - 1) + 2 * (n2 - 1)) :
    vtk_node_index_to_lexicographic_2d n1 n2 m =
      (0, m - (4 + 2 * (n1 - 1) + (n2 - 1)) + 1) := by
  unfold vtk_node_index_to_lexicographic_2d
  split_ifs <;> first | rfl | (exfalso; omega)

/-- The inverse on the face-interior block. -/
theorem gInv_face (n1 n2 m : ℕ) (hl : 4 + 2 * (n1 - 1) + 2 * (n2 - 1) ≤ m) :
    vtk_node_index_to_lexicographic_2d n1 n2 m =
      ((m - (4 + 2 * (n1 - 1 + (n2 - 1)))) % (n1 - 1) + 1,
       (m - (4 + 2 * (n1 - 1 + (n2 - 1)))) / (n1 - 1) + 1) := by
  unfold vtk_node_index_to_lexicographic_2d
  split_ifs <;> first | rfl | (exfalso; omega)

/-- The grid has as many points as the node-index range: the four
vertices, the four edge-interior blocks and the face-interior block
together exhaust `(n1+1)*(n2+1)`. -/
theorem vtkLex2_grid_card (n1 n2 : ℕ) (h1 : 1 ≤ n1) (h2 : 1 ≤ n2) :
    (n1 + 1) * (n2 + 1) =
      4 + 2 * (n1 - 1) + 2 * (n2 - 1) + (n1 - 1) * (n2 - 1) := by
  obtain ⟨a, rfl⟩ : ∃ a, n1 = a + 1 := ⟨n1 - 1, by omega⟩
  obtain ⟨b, rfl⟩ : ∃ b, n2 = b + 1 := ⟨n2 - 1, by omega⟩
  simp only [Nat.add_sub_cancel]
  ring

/-- Recovering the lexicographic coordinates from the node index:
`vtk_node_index_to_lexicographic_2d` is a left inverse of
`vtk_lexicographic_to_node_index_2d_ideal` on the grid. -/
theorem vtkLex2_left_inverse (n1 n2 i j : ℕ) (h1 : 1 ≤ n1) (h2 : 1 ≤ n2)
    (hi : i ≤ n1) (hj : j ≤ n2) :
    vtk_node_index_to_lexicographic_2d n1 n2
      (vtk_lexicographic_to_node_index_2d_ideal n1 n2 i j) = (i, j) := by
  by_cases hib : i = 0 ∨ i = n1 <;> by_cases hjb : j = 0 ∨ j = n2
  · -- vertex stratum
    rw [vtkLex2_vertex_val n1 n2 i j hib hjb]
    have hn1 : n1 ≠ 0 := by omega
    have hn2 : n2 ≠ 0 := by omega
    rcases hib with rfl | rfl <;> rcases hjb with rfl | rfl <;>
      simp [vtk_node_index_to_lexicographic_2d, hn1, hn2]
  · -- edge stratum, j interior
    rw [vtkLex2_jedge_val n1 n2 i j hib hjb]
    push_neg at hjb
    rcases hib with hi0 | hin
    · rw [if_neg (by omega : ¬(i ≠ 0))]
      rw [gInv_left n1 n2]
      · simp only [Prod.mk.injEq]; omega
      · omega
      · omega
    · rw [if_pos (by omega : i ≠ 0)]
      rw [gInv_right n1 n2]
      · simp only [Prod.mk.injEq]; omega
      · omega
      · omega
  · -- edge stratum, i interior
    rw [vtkLex2_iedge_val n1 n2 i j hib hjb]
    push_neg at hib
    rcases hjb with hj0 | hjn
    · rw [if_neg (by omega : ¬(j ≠ 0))]
      rw [gInv_bottom n1 n2]
      · simp only [Prod.mk.injEq]; omega
      · omega
      · omega
    · rw [if_pos (by omega : j ≠ 0)]
      rw [gInv_top n1 n2]
      · simp only [Prod.mk.injEq]; omega
      · omega
      · omega
  · -- face stratum
    rw [vtkLex2_face_val n1 n2 i j hib hjb]
    push_neg at hib hjb
    rw [gInv_face n1 n2]
    · have e1 : 4 + 2 * (n1 - 1 + (n2 - 1)) + (i - 1) + (n1 - 1) * (j - 1) -
          (4 + 2 * (n1 - 1 + (n2 - 1))) = (i - 1) + (n1 - 1) * (j - 1) := by
        omega
      rw [e1, Nat.add_mul_mod_self_left, Nat.mod_eq_of_lt (by omega),
        Nat.add_mul_div_left _ _ (by omega : 0 < n1 - 1),
        Nat.div_eq_of_lt (by omega)]
      simp only [Prod.mk.injEq]
      omega
    · omega

/-- Producing each node index from its lexicographic coordinates:
`vtk_node_index_to_lexicographic_2d` lands in the grid and is a right
inverse of `vtk_lexicographic_to_node_index_2d_ideal` on
`[0, (n1+1)*(n2+1))`. -/
theorem vtkLex2_right_inverse (n1 n2 m : ℕ) (h1 : 1 ≤ n1) (h2 : 1 ≤ n2)
    (hm : m < (n1 + 1) * (n2 + 1)) :
    (vtk_node_index_to_lexicographic_2d n1 n2 m).1 ≤ n1 ∧
    (vtk_node_index_to_lexicographic_2d n1 n2 m).2 ≤ n2 ∧
    vtk_lexicographic_to_node_index_2d_ideal n1 n2
      (vtk_node_index_to_lexicographic_2d n1 n2 m).1
      (vtk_node_index_to_lexicographic_2d n1 n2 m).2 = m := by
  have hc := vtkLex2_grid_card n1 n2 h1 h2
  by_cases hm0 : m = 0
  · subst hm0
    rw [gInv_corner0]
    refine ⟨by omega, by omega, ?_⟩
    rw [vtkLex2_vertex_val n1 n2 0 0 (Or.inl rfl) (Or.inl rfl)]
    simp
  · by_cases hm1 : m = 1
    · subst hm1
      rw [gInv_corner1]
      refine ⟨by omega, by omega, ?_⟩
      rw [vtkLex2_vertex_val n1 n2 n1 0 (Or.inr rfl) (Or.inl rfl),
        if_pos (by omega : n1 ≠ 0)]
      simp
    · by_cases hm2 : m = 2
      · subst hm2
        rw [gInv_corner2]
        refine ⟨by omega, by omega, ?_⟩
        rw [vtkLex2_vertex_val n1 n2 n1 n2 (Or.inr rfl) (Or.inr rfl),
          if_pos (by omega : n1 ≠ 0), if_pos (by omega : n2 ≠ 0)]
      · by_cases hm3 : m = 3
        · subst hm3
          rw [gInv_corner3]
          refine ⟨by omega, by omega, ?_⟩
          rw [vtkLex2_vertex_val n1 n2 0 n2 (Or.inl rfl) (Or.inr rfl)]
          simp
          omega
        · by_cases hb : m < 4 + (n1 - 1)
          · rw [gInv_bottom n1 n2 m (by omega) hb]
            refine ⟨by omega, by omega, ?_⟩
            rw [vtkLex2_iedge_val n1 n2 _ _ (by omega) (Or.inl rfl),
              if_neg (by omega : ¬((0 : ℕ) ≠ 0))]
            omega
          · by_cases hr : m < 4 + (n1 - 1) + (n2 - 1)
            · rw [gInv_right n1 n2 m (by omega) hr]
              refine ⟨by omega, by omega, ?_⟩
              rw [vtkLex2_jedge_val n1 n2 _ _ (Or.inr rfl) (by omega),
                if_pos (by omega : n1 ≠ 0)]
              omega
            · by_cases ht : m < 4 + 2 * (n1 - 1) + (n2 - 1)
              · rw [gInv_top n1 n2 m (by omega) ht]
                refine ⟨by omega, by omega, ?_⟩
                rw [vtkLex2_iedge_val n1 n2 _ _ (by omega) (Or.inr rfl),
                  if_pos (by omega : n2 ≠ 0)]
                omega
              · by_cases hlf : m < 4 + 2 * (n1 - 1) + 2 * (n2 - 1)
                · rw [gInv_left n1 n2 m (by omega) hlf]
                  refine ⟨by omega, by omega, ?_⟩
                  rw [vtkLex2_jedge_val n1 n2 _ _ (Or.inl rfl) (by omega),
                    if_neg (by omega : ¬((0 : ℕ) ≠ 0))]
                  omega
                · -- face-interior block
                  have hn1 : 2 ≤ n1 := by
                    by_contra hx
                    have he : n1 = 1 := by omega
                    subst he
                    omega
                  have hn2 : 2 ≤ n2 := by
                    by_contra hx
                    have he : n2 = 1 := by omega
                    subst he
                    omega
                  have hrb : m - (4 + 2 * (n1 - 1 + (n2 - 1))) <
                      (n1 - 1) * (n2 - 1) := by omega
                  have hdm := Nat.mod_lt (m - (4 + 2 * (n1 - 1 + (n2 - 1))))
                    (by omega : 0 < n1 - 1)
                  have hdd : m - (4 + 2 * (n1 - 1 + (n2 - 1))) <
                      (n2 - 1) * (n1 - 1) := by
                    rw [Nat.mul_comm (n2 - 1) (n1 - 1)]
                    omega
                  have hdv := (Nat.div_lt_iff_lt_mul
                    (by omega : 0 < n1 - 1)).mpr hdd
                  have hq := Nat.mod_add_div
                    (m - (4 + 2 * (n1 - 1 + (n2 - 1)))) (n1 - 1)
                  rw [gInv_face n1 n2 m (by omega)]
                  generalize hE :
                    (m - (4 + 2 * (n1 - 1 + (n2 - 1)))) % (n1 - 1) = E
                    at hdm hq ⊢
                  generalize hD :
                    (m - (4 + 2 * (n1 - 1 + (n2 - 1)))) / (n1 - 1) = D
                    at hdv hq ⊢
                  refine ⟨by omega, by omega, ?_⟩
                  rw [vtkLex2_face_val n1 n2 (E + 1) (D + 1) (by omega)
                    (by omega)]
                  simp only [Nat.add_sub_cancel]
                  omega

/-- Every node index of a grid point stays below the total node
count `(n1+1)*(n2+1)`. -/
theorem vtkLex2_lt_total (n1 n2 i j : ℕ) (h1 : 1 ≤ n1) (h2 : 1 ≤ n2)
    (hi : i ≤ n1) (hj : j ≤ n2) :
    vtk_lexicographic_to_node_index_2d_ideal n1 n2 i j < (n1 + 1) * (n2 + 1) := by
  have hc := vtkLex2_grid_card n1 n2 h1 h2
  by_cases hib : i = 0 ∨ i = n1 <;> by_cases hjb : j = 0 ∨ j = n2
  · rw [vtkLex2_vertex_val n1 n2 i j hib hjb]
    split_ifs <;> omega
  · rw [vtkLex2_jedge_val n1 n2 i j hib hjb]
    push_neg at hjb
    split_ifs <;> omega
  · rw [vtkLex2_iedge_val n1 n2 i j hib hjb]
    push_neg at hib
    split_ifs <;> omega
  · rw [vtkLex2_face_val n1 n2 i j hib hjb]
    push_neg at hib hjb
    have hj2 : j - 1 ≤ n2 - 2 := by omega
    have hp1 : (n1 - 1) * (j - 1) ≤ (n1 - 1) * (n2 - 2) :=
      Nat.mul_le_mul (Nat.le_refl (n1 - 1)) hj2
    have hx : n2 - 1 = n2 - 2 + 1 := by omega
    have hp2 : (n1 - 1) * (n2 - 1) = (n1 - 1) * (n2 - 2) + (n1 - 1) := by
      rw [hx, Nat.mul_add, Nat.mul_one]
    omega

/-! ### Bridging the wrapping embedding and its idealization -/

/-- Wrapping addition agrees with natural addition below `2^32`. -/
theorem u32_add_eq (a b : ℕ) (h : a + b < 4294967296) : u32_add a b = a + b := by
  unfold u32_add
  exact Nat.mod_eq_of_lt h

/-- Wrapping multiplication agrees with natural multiplication below
`2^32`. -/
theorem u32_mul_eq (a b : ℕ) (h : a * b < 4294967296) : u32_mul a b = a * b := by
  unfold u32_mul
  exact Nat.mod_eq_of_lt h

/-- Wrapping subtraction agrees with natural subtraction when it does
not underflow. -/
theorem u32_sub_eq (a b : ℕ) (hb : b ≤ a) (ha : a < 4294967296) :
    u32_sub a b = a - b := by
  unfold u32_sub
  rw [Nat.mod_eq_of_lt ha, Nat.mod_eq_of_lt (by omega : b < 4294967296)]
  have e : a + 4294967296 - b = a - b + 4294967296 := by omega
  rw [e, Nat.add_mod_right, Nat.mod_eq_of_lt (by omega)]

/-- Value of the wrapping 2-D node index on the vertex stratum. -/
theorem vtkLex2u_vertex_val (n1 n2 i j : ℕ) (hib : i = 0 ∨ i = n1)
    (hjb : j = 0 ∨ j = n2) :
    vtk_lexicographic_to_node_index_2d n1 n2 i j =
      (if i ≠ 0 then (if j ≠ 0 then 2 else 1) else if j ≠ 0 then 3 else 0) := by
  simp [vtk_lexicographic_to_node_index_2d, boundaryCount2, hib, hjb]

/-- Value of the wrapping 2-D node index on the edge stratum with the
first coordinate interior. -/
theorem vtkLex2u_iedge_val (n1 n2 i j : ℕ) (hib : ¬(i = 0 ∨ i = n1))
    (hjb : j = 0 ∨ j = n2) :
    vtk_lexicographic_to_node_index_2d n1 n2 i j =
      u32_add (u32_add (u32_sub i 1)
        (if j ≠ 0 then u32_sub (u32_add (u32_sub n1 1) n2) 1 else 0)) 4 := by
  simp [vtk_lexicographic_to_node_index_2d, boundaryCount2, hib, hjb]

/-- Value of the wrapping 2-D node index on the edge stratum with the
second coordinate interior. -/
theorem vtkLex2u_jedge_val (n1 n2 i j : ℕ) (hib : i = 0 ∨ i = n1)
    (hjb : ¬(j = 0 ∨ j = n2)) :
    vtk_lexicographic_to_node_index_2d n1 n2 i j =
      u32_add (u32_add (u32_sub j 1)
        (if i ≠ 0 then u32_sub n1 1
         else u32_sub (u32_add (u32_mul 2 (u32_sub n1 1)) n2) 1)) 4 := by
  simp [vtk_lexicographic_to_node_index_2d, boundaryCount2, hib, hjb]

/-- Value of the wrapping 2-D node index on the face-interior
stratum. -/
theorem vtkLex2u_face_val (n1 n2 i j : ℕ) (hib : ¬(i = 0 ∨ i = n1))
    (hjb : ¬(j = 0 ∨ j = n2)) :
    vtk_lexicographic_to_node_index_2d n1 n2 i j =
      u32_add (u32_add
        (u32_add 4 (u32_mul 2 (u32_sub (u32_add (u32_sub n1 1) n2) 1)))
        (u32_sub i 1)) (u32_mul (u32_sub n1 1) (u32_sub j 1)) := by
  simp [vtk_lexicographic_to_node_index_2d, boundaryCount2, hib, hjb]

/-- On grid points of a resolution at least (1,1) whose total node
count fits in 32 bits, the wrapping embedding computes the same value
as the unbounded idealization: no intermediate result of the source
overflows there. -/
theorem vtkLex2_u32_eq_ideal (n1 n2 i j : ℕ) (h1 : 1 ≤ n1) (h2 : 1 ≤ n2)
    (hi : i ≤ n1) (hj : j ≤ n2)
    (hfit : (n1 + 1) * (n2 + 1) ≤ 4294967296) :
    vtk_lexicographic_to_node_index_2d n1 n2 i j =
      vtk_lexicographic_to_node_index_2d_ideal n1 n2 i j := by
  have hc := vtkLex2_grid_card n1 n2 h1 h2
  rw [hc] at hfit
  by_cases hib : i = 0 ∨ i = n1 <;> by_cases hjb : j = 0 ∨ j = n2
  · rw [vtkLex2u_vertex_val n1 n2 i j hib hjb,
      vtkLex2_vertex_val n1 n2 i j hib hjb]
  · -- j interior
    rw [vtkLex2u_jedge_val n1 n2 i j hib hjb,
      vtkLex2_jedge_val n1 n2 i j hib hjb]
    push_neg at hjb
    rcases hib with hi0 | hin
    · rw [if_neg (by omega : ¬(i ≠ 0)), if_neg (by omega : ¬(i ≠ 0)),
        u32_sub_eq n1 1 (by omega) (by omega),
        u32_mul_eq 2 (n1 - 1) (by omega),
        u32_add_eq (2 * (n1 - 1)) n2 (by omega),
        u32_sub_eq (2 * (n1 - 1) + n2) 1 (by omega) (by omega),
        u32_sub_eq j 1 (by omega) (by omega),
        u32_add_eq (j - 1) (2 * (n1 - 1) + n2 - 1) (by omega),
        u32_add_eq (j - 1 + (2 * (n1 - 1) + n2 - 1)) 4 (by omega)]
      omega
    · rw [if_pos (by omega : i ≠ 0), if_pos (by omega : i ≠ 0),
        u32_sub_eq n1 1 (by omega) (by omega),
        u32_sub_eq j 1 (by omega) (by omega),
        u32_add_eq (j - 1) (n1 - 1) (by omega),
        u32_add_eq (j - 1 + (n1 - 1)) 4 (by omega)]
  · -- i interior
    rw [vtkLex2u_iedge_val n1 n2 i j hib hjb,
      vtkLex2_iedge_val n1 n2 i j hib hjb]
    push_neg at hib
    rcases hjb with hj0 | hjn
    · rw [if_neg (by omega : ¬(j ≠ 0)), if_neg (by omega : ¬(j ≠ 0)),
        u32_sub_eq i 1 (by omega) (by omega),
        u32_add_eq (i - 1) 0 (by omega),
        u32_add_eq (i - 1 + 0) 4 (by omega)]
    · rw [if_pos (by omega : j ≠ 0), if_pos (by omega : j ≠ 0),
        u32_sub_eq n1 1 (by omega) (by omega),
        u32_add_eq (n1 - 1) n2 (by omega),
        u32_sub_eq (n1 - 1 + n2) 1 (by omega) (by omega),
        u32_sub_eq i 1 (by omega) (by omega),
        u32_add_eq (i - 1) (n1 - 1 + n2 - 1) (by omega),
        u32_add_eq (i - 1 + (n1 - 1 + n2 - 1)) 4 (by omega)]
      omega
  · -- face interior
    rw [vtkLex2u_face_val n1 n2 i j hib hjb,
      vtkLex2_face_val n1 n2 i j hib hjb]
    push_neg at hib hjb
    have hn1 : 2 ≤ n1 := by omega
    have hn2 : 2 ≤ n2 := by omega
    have hp1 : (n1 - 1) * (j - 1) ≤ (n1 - 1) * (n2 - 2) :=
      Nat.mul_le_mul (Nat.le_refl (n1 - 1)) (by omega)
    have hp2 : (n1 - 1) * (n2 - 1) = (n1 - 1) * (n2 - 2) + (n1 - 1) := by
      have hx : n2 - 1 = n2 - 2 + 1 := by omega
      rw [hx, Nat.mul_add, Nat.mul_one]
    rw [u32_sub_eq n1 1 (by omega) (by omega),
      u32_add_eq (n1 - 1) n2 (by omega),
      u32_sub_eq (n1 - 1 + n2) 1 (by omega) (by omega),
      u32_mul_eq 2 (n1 - 1 + n2 - 1) (by omega),
      u32_add_eq 4 (2 * (n1 - 1 + n2 - 1)) (by omega),
      u32_sub_eq i 1 (by omega) (by omega),
      u32_add_eq (4 + 2 * (n1 - 1 + n2 - 1)) (i - 1) (by omega),
      u32_sub_eq j 1 (by omega) (by omega),
      u32_mul_eq (n1 - 1) (j - 1) (by omega),
      u32_add_eq (4 + 2 * (n1 - 1 + n2 - 1) + (i - 1)) ((n1 - 1) * (j - 1))
        (by omega)]
    omega

/-- Counterexample to C2 as stated: at resolution (0,2), which the
claim's quantification admits, the node (0,1) has exactly one
coordinate on the boundary of the grid, yet the source's wrapping
unsigned arithmetic yields index 3 — inside the vertex range and not
an edge-interior index offset past the 4 vertices. -/
theorem claim_C2_wraparound_counterexample :
    ((0 : ℕ) = 0 ∨ (0 : ℕ) = 0) ∧ ¬((1 : ℕ) = 0 ∨ (1 : ℕ) = 2) ∧
    (0 : ℕ) ≤ 0 ∧ (1 : ℕ) ≤ 2 ∧
    vtk_lexicographic_to_node_index_2d 0 2 0 1 = 3 ∧
    ¬(4 ≤ vtk_lexicographic_to_node_index_2d 0 2 0 1) := by
  decide

/-- C2 (amended): for a Quadrilateral at a resolution with both
entries at least 1 and total node count `(n1+1)*(n2+1)` at most
`2^32` — so that the 32-bit arithmetic does not wrap — the node
numbering classifies each grid point by its number of boundary
coordinates: two boundary coordinates give a vertex index below 4,
exactly one gives an edge-interior index at or past 4 and below the
start of the face-interior block, and none gives the row-major
face-interior index offset past all vertex and edge nodes; with
resolution (1,1) the four corners map to 0, 1, 2, 3 in the
quadrilateral's own vertex order. -/
theorem claim_C2_quad_node_classification :
    (∀ n1 n2 i j : ℕ, 1 ≤ n1 → 1 ≤ n2 →
      (n1 + 1) * (n2 + 1) ≤ 4294967296 → i ≤ n1 → j ≤ n2 →
      (((i = 0 ∨ i = n1) ∧ (j = 0 ∨ j = n2)) →
        vtk_lexicographic_to_node_index_2d n1 n2 i j < 4) ∧
      ((¬(i = 0 ∨ i = n1) ∧ (j = 0 ∨ j = n2) ∨
          (i = 0 ∨ i = n1) ∧ ¬(j = 0 ∨ j = n2)) →
        4 ≤ vtk_lexicographic_to_node_index_2d n1 n2 i j ∧
          vtk_lexicographic_to_node_index_2d n1 n2 i j <
            4 + 2 * (n1 - 1 + (n2 - 1))) ∧
      ((¬(i = 0 ∨ i = n1) ∧ ¬(j = 0 ∨ j = n2)) →
        vtk_lexicographic_to_node_index_2d n1 n2 i j =
          4 + 2 * (n1 - 1 + (n2 - 1)) + (i - 1) + (n1 - 1) * (j - 1))) ∧
    (vtk_lexicographic_to_node_index_2d 1 1 0 0 = 0 ∧
     vtk_lexicographic_to_node_index_2d 1 1 1 0 = 1 ∧
     vtk_lexicographic_to_node_index_2d 1 1 1 1 = 2 ∧
     vtk_lexicographic_to_node_index_2d 1 1 0 1 = 3) := by
  constructor
  · intro n1 n2 i j h1 h2 hfit hi hj
    rw [vtkLex2_u32_eq_ideal n1 n2 i j h1 h2 hi hj hfit]
    refine ⟨?_, ?_, ?_⟩
    · intro hv
      rw [vtkLex2_vertex_val n1 n2 i j hv.1 hv.2]
      split_ifs <;> omega
    · intro he
      rcases he with ⟨hib, hjb⟩ | ⟨hib, hjb⟩
      · rw [vtkLex2_iedge_val n1 n2 i j hib hjb]
        push_neg at hib
        split_ifs <;> omega
      · rw [vtkLex2_jedge_val n1 n2 i j hib hjb]
        push_neg at hjb
        split_ifs <;> omega
    · intro hf
      exact vtkLex2_face_val n1 n2 i j hf.1 hf.2
  · refine ⟨by decide, by decide, by decide, by decide⟩

/-- Witness for the amended C2: at resolution (3,2) the edge-interior
node (2,0) gets an index in the edge stratum [4, 10), and at
resolution (1,1) the corner (1,1) maps to 2. -/
theorem claim_C2_quad_node_classification_witness :
    (4 ≤ vtk_lexicographic_to_node_index_2d 3 2 2 0 ∧
      vtk_lexicographic_to_node_index_2d 3 2 2 0 <
        4 + 2 * (3 - 1 + (2 - 1))) ∧
    vtk_lexicographic_to_node_index_2d 1 1 1 1 = 2 :=
  ⟨((claim_C2_quad_node_classification.1 3 2 2 0 (by decide) (by decide)
      (by decide) (by decide) (by decide)).2.1 (by decide)),
   claim_C2_quad_node_classification.2.2.2.1⟩

/-- Counterexample to C10 as stated: at the resolution
(4294967295, 1), admitted by the claim's quantification over all
resolutions at least (1,1), the distinct grid points (4294967293, 0)
and (0, 0) are both numbered 0 by the source's wrapping 32-bit
arithmetic, so the numbering is not injective on the grid there. -/
theorem claim_C10_wraparound_counterexample :
    (1 : ℕ) ≤ 4294967295 ∧ (1 : ℕ) ≤ 1 ∧
    (4294967293 : ℕ) ≤ 4294967295 ∧ (0 : ℕ) ≤ 1 ∧
    (4294967293 : ℕ) ≠ 0 ∧
    vtk_lexicographic_to_node_index_2d 4294967295 1 4294967293 0 =
      vtk_lexicographic_to_node_index_2d 4294967295 1 0 0 ∧
    vtk_lexicographic_to_node_index_2d 4294967295 1 0 0 = 0 := by
  decide

/-- C10 (amended): for every resolution with both entries at least 1
whose total node count `(n1+1)*(n2+1)` is at most `2^32` — so that
the 32-bit arithmetic does not wrap — the 2-D node numbering is a
bijection from the grid `{0..n1} x {0..n2}` onto
`[0, (n1+1)*(n2+1))`: it is injective on the grid, maps the grid into
the range, and attains every index of the range. -/
theorem claim_C10_quad_node_numbering_bijective (n1 n2 : ℕ)
    (h1 : 1 ≤ n1) (h2 : 1 ≤ n2)
    (hfit : (n1 + 1) * (n2 + 1) ≤ 4294967296) :
    (∀ i1 j1 i2 j2 : ℕ, i1 ≤ n1 → j1 ≤ n2 → i2 ≤ n1 → j2 ≤ n2 →
      vtk_lexicographic_to_node_index_2d n1 n2 i1 j1 =
        vtk_lexicographic_to_node_index_2d n1 n2 i2 j2 →
      i1 = i2 ∧ j1 = j2) ∧
    (∀ i j : ℕ, i ≤ n1 → j ≤ n2 →
      vtk_lexicographic_to_node_index_2d n1 n2 i j < (n1 + 1) * (n2 + 1)) ∧
    (∀ m : ℕ, m < (n1 + 1) * (n2 + 1) →
      ∃ i j : ℕ, i ≤ n1 ∧ j ≤ n2 ∧
        vtk_lexicographic_to_node_index_2d n1 n2 i j = m) := by
  refine ⟨?_, ?_, ?_⟩
  · intro i1 j1 i2 j2 hi1 hj1 hi2 hj2 heq
    rw [vtkLex2_u32_eq_ideal n1 n2 i1 j1 h1 h2 hi1 hj1 hfit,
      vtkLex2_u32_eq_ideal n1 n2 i2 j2 h1 h2 hi2 hj2 hfit] at heq
    have e1 := vtkLex2_left_inverse n1 n2 i1 j1 h1 h2 hi1 hj1
    have e2 := vtkLex2_left_inverse n1 n2 i2 j2 h1 h2 hi2 hj2
    have e3 : (i1, j1) = (i2, j2) := by rw [← e1, ← e2, heq]
    exact ⟨congrArg Prod.fst e3, congrArg Prod.snd e3⟩
  · intro i j hi hj
    rw [vtkLex2_u32_eq_ideal n1 n2 i j h1 h2 hi hj hfit]
    exact vtkLex2_lt_total n1 n2 i j h1 h2 hi hj
  · intro m hm
    obtain ⟨hx, hy, hf⟩ := vtkLex2_right_inverse n1 n2 m h1 h2 hm
    refine ⟨_, _, hx, hy, ?_⟩
    rw [vtkLex2_u32_eq_ideal n1 n2 _ _ h1 h2 hx hy hfit]
    exact hf

/-- Witness for the amended C10 at resolution (1,1): the grid point
(1,1) maps below the total count 4 and the index 3 is attained on the
grid. -/
theorem claim_C10_quad_node_numbering_bijective_witness :
    vtk_lexicographic_to_node_index_2d 1 1 1 1 < (1 + 1) * (1 + 1) ∧
    ∃ i j : ℕ, i ≤ 1 ∧ j ≤ 1 ∧
      vtk_lexicographic_to_node_index_2d 1 1 i j = 3 :=
  ⟨(claim_C10_quad_node_numbering_bijective 1 1 (by decide) (by decide)
      (by decide)).2.1 1 1 (by decide) (by decide),
   (claim_C10_quad_node_numbering_bijective 1 1 (by decide) (by decide)
      (by decide)).2.2 3 (by decide)⟩

end DealII
